import Mathlib

/-!
Verification development for the EasyCV backend (Node/Express).

The definitions below are a shallow embedding of the code in
`backend/server.js`, `backend/middleware/cache.js`,
`backend/middleware/queue.js`, `backend/middleware/database.js` and
`backend/middleware/health.js`:

* the Redis-backed cache utilities (`cacheUtils.get` / `cacheUtils.set`),
  modelled with an explicit backend that can fail and stored values that
  may or may not re-parse (the image of `JSON.stringify` / `JSON.parse`);
* the Supabase single-row queries used by the handlers (`.single()`
  rejects when no row matches, and that rejection propagates);
* the `POST /tailor-cv` handler with its cache-first fetch, field
  validation, job enqueueing, three-attempt generative retry loop,
  skill normalization and Handlebars template rendering;
* the `cv-processing` queue worker;
* the `GET /submission/:id` handler;
* the upload-path text extraction dispatch on the declared media type;
* the comprehensive health check aggregation and its HTTP status mapping.

Effects that matter to the claims (generative-service invocations,
waits, enqueues) are recorded as an explicit event trace.
-/

/-- Model of a serialized value stored in Redis: either the result of
`JSON.stringify` on a value (which `JSON.parse` recovers), or a string
that does not parse back. -/
inductive StoredVal (α : Type) where
  | good (a : α)
  | corrupt
  deriving DecidableEq, Repr

/-- `JSON.parse` on a stored string: throwing is modelled with `Except`. -/
def jsonParseE {α : Type} : StoredVal α → Except Unit α
  | .good a => .ok a
  | .corrupt => .error ()

/-- The Redis backend as seen by `cache.js`: an association store plus a
flag saying whether the backend is unavailable (every operation on an
unavailable backend rejects). -/
structure CacheBackend (α : Type) where
  failing : Bool
  store : List (String × StoredVal α)
  deriving DecidableEq, Repr

/-- First-match association lookup (Redis `GET`). -/
def assocGet {β : Type} : List (String × β) → String → Option β
  | [], _ => none
  | (k, v) :: rest, key => if k = key then some v else assocGet rest key

/-- `redis.get(key)`: rejects when the backend is unavailable. -/
def redisGet {α : Type} (b : CacheBackend α) (k : String) :
    Except Unit (Option (StoredVal α)) :=
  if b.failing then .error () else .ok (assocGet b.store k)

/-- `redis.setex(key, ttl, s)`: rejects when the backend is unavailable,
otherwise overwrites the key. -/
def redisSetex {α : Type} (b : CacheBackend α) (k : String) (s : StoredVal α) :
    Except Unit (CacheBackend α) :=
  if b.failing then .error () else .ok ⟨b.failing, (k, s) :: b.store⟩

/-- The `try` block of `cacheUtils.get`: `redis.get` followed by
`value ? JSON.parse(value) : null`; either step may throw. -/
def cacheTryGet {α : Type} (b : CacheBackend α) (k : String) :
    Except Unit (Option α) :=
  match redisGet b k with
  | .error e => .error e
  | .ok none => .ok none
  | .ok (some s) =>
    match jsonParseE s with
    | .error e => .error e
    | .ok v => .ok (some v)

/-- `cacheUtils.get`: the catch handler turns any failure into `null`. -/
def cacheUtilsGet {α : Type} (b : CacheBackend α) (k : String) : Option α :=
  match cacheTryGet b k with
  | .ok r => r
  | .error _ => none

/-- `cacheUtils.set`: `redis.setex(key, ttl, JSON.stringify(value))` with
the catch handler absorbing any failure (the backend is then unchanged). -/
def cacheUtilsSet {α : Type} (b : CacheBackend α) (k : String) (v : α) :
    CacheBackend α :=
  match redisSetex b k (.good v) with
  | .ok b' => b'
  | .error _ => b

/-- Cache key used by `cacheSubmission` / `getSubmission`. -/
def subKey (id : String) : String := "submission:" ++ id

/-- A row of the `cv_submissions` table as the backend reads and writes it. -/
structure Submission where
  id : String
  original_cv_url : String
  original_cv_text : Option String
  job_spec_text : Option String
  status : String
  deriving DecidableEq, Repr

/-- The two columns selected by the `/tailor-cv` fetch
(`select('original_cv_text, job_spec_text')`). -/
structure SubProj where
  original_cv_text : Option String
  job_spec_text : Option String
  deriving DecidableEq, Repr

/-- Column projection of a full row. -/
def projOfSub (s : Submission) : SubProj :=
  ⟨s.original_cv_text, s.job_spec_text⟩

/-- What may sit in the cache under `submission:<id>`: the upload path and
`GET /submission/:id` cache the full row, while the `/tailor-cv` miss
path caches only the two-column projection. -/
inductive CachedSub where
  | full (s : Submission)
  | proj (p : SubProj)
  deriving DecidableEq, Repr

/-- Reading the two text fields off a cached value (property access in JS
works on either shape). -/
def projOfCached : CachedSub → SubProj
  | .full s => projOfSub s
  | .proj p => p

/-- First row with the given id (the table is keyed by id). -/
def dbFindRow : List Submission → String → Option Submission
  | [], _ => none
  | s :: rest, i => if s.id = i then some s else dbFindRow rest i

/-- `supabase...eq('id', id).single()` wrapped in `queryWithTimeout`:
a missing row makes `.single()` report an error, the query function
throws it, and `queryWithTimeout` rejects with it. -/
def dbSingleFull (db : List Submission) (i : String) : Except Unit Submission :=
  match dbFindRow db i with
  | some s => .ok s
  | none => .error ()

/-- Same query with `select('original_cv_text, job_spec_text')`. -/
def dbSingleProj (db : List Submission) (i : String) : Except Unit SubProj :=
  (dbSingleFull db i).map projOfSub

/-- JavaScript truthiness of a possibly-absent string field:
`undefined`, `null` and the empty string are falsy. -/
def jsTruthyStr : Option String → Bool
  | none => false
  | some s => s != ""

/-- A skills field of the parsed generative JSON output: the prompt asks
for a comma-separated string, but the handler also accepts an array
(`typeof === 'string'` dispatch). -/
inductive SkillsVal where
  | str (v : String)
  | arr (v : List String)
  deriving DecidableEq, Repr

/-- One experience entry of the target schema. -/
structure ExperienceEntry where
  job_title : String
  company_name : String
  start_date : String
  end_date : String
  location : Option String
  achievements : List String
  deriving DecidableEq, Repr

/-- One education entry of the target schema. -/
structure EducationEntry where
  degree_name : String
  university_name : String
  location : Option String
  start_date : String
  end_date : String
  details : List String
  deriving DecidableEq, Repr

/-- The parsed generative JSON output (`cvTemplateJSONStructure`). -/
structure TailoredCv where
  full_name : String
  email : String
  phone_number : String
  linkedin_url : Option String
  portfolio_github_url : Option String
  address : String
  summary : String
  experience : List ExperienceEntry
  education : List EducationEntry
  technical_skills : SkillsVal
  soft_skills : SkillsVal
  deriving DecidableEq, Repr

/-- `split(',').map(s => s.trim()).filter(Boolean)` applied when the
skills field is a string; an array value is passed through unchanged. -/
def normSkills : SkillsVal → List String
  | .str v => ((v.splitOn ",").map String.trim).filter (· != "")
  | .arr v => v

/-- The data handed to the Handlebars template after skill normalization. -/
structure TplCv where
  full_name : String
  email : String
  phone_number : String
  linkedin_url : Option String
  portfolio_github_url : Option String
  address : String
  summary : String
  experience : List ExperienceEntry
  education : List EducationEntry
  technical_skills : List String
  soft_skills : List String
  deriving DecidableEq, Repr

/-- The in-place skill normalization the handler performs before
rendering. -/
def normalizeCv (d : TailoredCv) : TplCv :=
  { full_name := d.full_name
    email := d.email
    phone_number := d.phone_number
    linkedin_url := d.linkedin_url
    portfolio_github_url := d.portfolio_github_url
    address := d.address
    summary := d.summary
    experience := d.experience
    education := d.education
    technical_skills := normSkills d.technical_skills
    soft_skills := normSkills d.soft_skills }

/-- Handlebars truthiness of a list under a block `if` helper: the empty
array is falsy. -/
def hbTruthyList (l : List String) : Bool := l != []

/-- One emitted piece of `cv_template.html`, in document order. -/
inductive Frag where
  | nameHeading (name : String)
  | contactLine (address email phone : String)
  | linkedinLink (url : String)
  | portfolioLink (url : String)
  | sectionTitle (t : String)
  | summaryText (s : String)
  | educationEntry (e : EducationEntry)
  | experienceEntry (e : ExperienceEntry)
  | technicalSkillsBlock (xs : List String)
  | softSkillsBlock (xs : List String)
  deriving DecidableEq, Repr

/-- The compiled Handlebars template applied to the tailored data,
following `cv_template.html` top to bottom: the name heading and contact
line, the two optional links, then the Professional Summary, Education,
Experience and Skills sections.  The section titles are static markup;
the linkedin/portfolio links and the two skills blocks sit under
`if` block helpers (`optFrag` models one such block emitting a single
piece). -/
def optFrag (c : Bool) (f : Frag) : List Frag :=
  if c then [f] else []

/-- The compiled Handlebars template applied to the tailored data —
see the doc comment above `optFrag` and the template walkthrough. -/
def renderTemplate (d : TplCv) : List Frag :=
  [Frag.nameHeading d.full_name,
   Frag.contactLine d.address d.email d.phone_number]
  ++ optFrag (jsTruthyStr d.linkedin_url)
       (Frag.linkedinLink (d.linkedin_url.getD ""))
  ++ optFrag (jsTruthyStr d.portfolio_github_url)
       (Frag.portfolioLink (d.portfolio_github_url.getD ""))
  ++ [Frag.sectionTitle "Professional Summary", Frag.summaryText d.summary,
      Frag.sectionTitle "Education"]
  ++ d.education.map Frag.educationEntry
  ++ [Frag.sectionTitle "Experience"]
  ++ d.experience.map Frag.experienceEntry
  ++ [Frag.sectionTitle "Skills"]
  ++ optFrag (hbTruthyList d.technical_skills)
       (Frag.technicalSkillsBlock d.technical_skills)
  ++ optFrag (hbTruthyList d.soft_skills)
       (Frag.softSkillsBlock d.soft_skills)

/-- Externally visible effects of the tailoring pipeline: a generative
service invocation (with its attempt number), a `setTimeout` wait, and
queue insertions. -/
inductive Ev where
  | genInvoke (attempt : Nat)
  | sleepMs (n : Nat)
  | enqueueCvJob (id : String)
  | enqueuePdfJob (id : String)
  deriving DecidableEq, Repr

/-- Whether an event is a generative-service invocation. -/
def isGenInvoke : Ev → Bool
  | .genInvoke _ => true
  | _ => false

/-- Number of generative-service invocations recorded in a trace. -/
def countGen (evs : List Ev) : Nat :=
  evs.countP isGenInvoke

/-- Payload of a `cv-processing` job (`job.data`). -/
structure CvJob where
  submissionId : String
  originalCvContent : String
  jobSpecContent : String
  deriving DecidableEq, Repr

/-- Payload of a `pdf-generation` job. -/
structure PdfJob where
  submissionId : String
  deriving DecidableEq, Repr

/-- The shared state the `/tailor-cv` handler touches: the submissions
table, the Redis cache, and the two Bull queues. -/
structure Sys where
  db : List Submission
  cache : CacheBackend CachedSub
  cvQueue : List CvJob
  pdfQueue : List PdfJob
  deriving DecidableEq, Repr

/-- The cache-first fetch of `/tailor-cv`: `cacheUtils.getSubmission`,
then on a miss the database single-row query followed by
`cacheUtils.cacheSubmission` on the result; a database rejection
propagates. Returns the fetched columns and the cache state after the
fetch. -/
def fetchPhase (cache : CacheBackend CachedSub) (db : List Submission)
    (i : String) : Except Unit (SubProj × CacheBackend CachedSub) :=
  match cacheUtilsGet cache (subKey i) with
  | some c => .ok (projOfCached c, cache)
  | none =>
    match dbSingleProj db i with
    | .error e => .error e
    | .ok p => .ok (p, cacheUtilsSet cache (subKey i) (CachedSub.proj p))

/-- The body of the `/tailor-cv` response. -/
inductive RespBody where
  | pdfDoc (doc : List Frag)
  | jsonSub (c : CachedSub)
  | jsonErr (msg : String)
  deriving DecidableEq, Repr

/-- An HTTP response as produced by the handlers. -/
structure HttpResp where
  status : Nat
  body : RespBody
  deriving DecidableEq, Repr

/-- The `for (let attempt = 1; attempt <= 3; attempt++)` retry loop of
`/tailor-cv`, unrolled at its literal bound: each iteration invokes the
generative service once (recorded in the trace) and tries `JSON.parse`
on its text; the loop breaks on the first successful parse and there is
no wait between iterations.  `responses` gives the generative text of
each attempt. -/
def tailorRetry (responses : Nat → StoredVal TailoredCv) :
    Option TailoredCv × List Ev :=
  match jsonParseE (responses 1) with
  | .ok d => (some d, [Ev.genInvoke 1])
  | .error _ =>
    match jsonParseE (responses 2) with
    | .ok d => (some d, [Ev.genInvoke 1, Ev.genInvoke 2])
    | .error _ =>
      match jsonParseE (responses 3) with
      | .ok d =>
        (some d, [Ev.genInvoke 1, Ev.genInvoke 2, Ev.genInvoke 3])
      | .error _ =>
        (none, [Ev.genInvoke 1, Ev.genInvoke 2, Ev.genInvoke 3])

/-- The `POST /tailor-cv` handler, from the cache-first fetch to the
response: validation of the two text fields (JS truthiness), enqueueing
the `cv-processing` job, the three-attempt generative retry loop,
skill normalization, template rendering and the PDF response; any
store rejection falls to the catch block's generic 500.  Returns the
response, the state after the run, and the effect trace. -/
def tailorCvHandler (sys : Sys) (submissionId : String)
    (responses : Nat → StoredVal TailoredCv) :
    HttpResp × Sys × List Ev :=
  match fetchPhase sys.cache sys.db submissionId with
  | .error _ =>
    (⟨500, .jsonErr "Internal server error."⟩, sys, [])
  | .ok (p, cache') =>
    if jsTruthyStr p.original_cv_text && jsTruthyStr p.job_spec_text then
      let job : CvJob :=
        ⟨submissionId, (p.original_cv_text.getD ""), (p.job_spec_text.getD "")⟩
      let sys1 : Sys :=
        { sys with cache := cache', cvQueue := sys.cvQueue ++ [job] }
      match tailorRetry responses with
      | (none, evs) =>
        (⟨500, .jsonErr "AI failed to generate a valid CV. Please try again."⟩,
         sys1, Ev.enqueueCvJob submissionId :: evs)
      | (some d, evs) =>
        (⟨200, .pdfDoc (renderTemplate (normalizeCv d))⟩,
         sys1, Ev.enqueueCvJob submissionId :: evs)
    else
      (⟨400,
        .jsonErr "Missing original CV content or job spec content in database for tailoring."⟩,
       { sys with cache := cache' }, [])

/-- Result value returned by a queue worker. -/
inductive JobOutcome where
  | completed (submissionId : String)
  deriving DecidableEq, Repr

/-- The `cvProcessingQueue.process` worker: waits 2000 ms (simulated
processing), adds a `pdf-generation` job, and returns completed.  It
performs no generative-service invocation and no database write. -/
def cvProcessingProcess (sys : Sys) (job : CvJob) :
    JobOutcome × Sys × List Ev :=
  (JobOutcome.completed job.submissionId,
   { sys with pdfQueue := sys.pdfQueue ++ [⟨job.submissionId⟩] },
   [Ev.sleepMs 2000, Ev.enqueuePdfJob job.submissionId])

/-- JavaScript truthiness of a row object: objects are always truthy, so
the `if (!data)` test in `GET /submission/:id` cannot fire on a row. -/
def jsTruthyObj (_ : Submission) : Bool := true

/-- The `GET /submission/:id` handler: cache first; on a miss the
single-row query (whose missing-row rejection falls to the catch
block's generic 500), the dead `if (!data)` 404 branch, caching of the
row, and the 200 JSON response. -/
def getSubmissionHandler (cache : CacheBackend CachedSub)
    (db : List Submission) (i : String) :
    HttpResp × CacheBackend CachedSub :=
  match cacheUtilsGet cache (subKey i) with
  | some c => (⟨200, .jsonSub c⟩, cache)
  | none =>
    match dbSingleFull db i with
    | .error _ => (⟨500, .jsonErr "Internal server error."⟩, cache)
    | .ok s =>
      if jsTruthyObj s then
        (⟨200, .jsonSub (.full s)⟩,
         cacheUtilsSet cache (subKey i) (CachedSub.full s))
      else
        (⟨404, .jsonErr "Submission not found."⟩, cache)

/-- An uploaded file buffer, abstracted by what the external parsers do
with it: the outcome of `pdf-parse`, the outcome of `mammoth`, and its
(always defined) UTF-8 decoding `buffer.toString('utf8')`. -/
structure FileBuf where
  pdfParseResult : Except Unit String
  docxParseResult : Except Unit String
  utf8 : String
  deriving Repr

/-- `parsePdf`: the `try` block awaits `pdf-parse` and returns its text;
the catch handler logs and returns `null`. -/
def parsePdf (buf : FileBuf) : Option String :=
  match buf.pdfParseResult with
  | .ok t => some t
  | .error _ => none

/-- `parseDocx`: same shape over `mammoth.extractRawText`. -/
def parseDocx (buf : FileBuf) : Option String :=
  match buf.docxParseResult with
  | .ok t => some t
  | .error _ => none

/-- The DOCX media type string used by the dispatch. -/
def docxMime : String :=
  "application/vnd.openxmlformats-officedocument.wordprocessingml.document"

/-- The `/upload` media-type dispatch for the CV file: PDF and DOCX go to
their parsers, every other declared type falls through to
`buffer.toString('utf8')`. `none` is the parsing-failed signal. -/
def extractCv (mimetype : String) (buf : FileBuf) : Option String :=
  if mimetype = "application/pdf" then parsePdf buf
  else if mimetype = docxMime then parseDocx buf
  else some buf.utf8

/-- The upload handler's reaction to the extraction result: `null` text
is rejected with HTTP 400, otherwise the text flows on. -/
def cvUploadExtractStep (mimetype : String) (buf : FileBuf) :
    Except (Nat × String) String :=
  match extractCv mimetype buf with
  | none => .error (400, "Unsupported CV file format or parsing failed.")
  | some t => .ok t

/-- A health-check status string as produced by `health.js`: the three
documented tiers plus the `error` marker substituted for a rejected
check promise in `comprehensiveHealth`. -/
inductive HStatus where
  | healthy
  | warning
  | unhealthy
  | errored
  deriving DecidableEq, Repr

/-- `basicHealth` always reports healthy. -/
def basicHealthStatus : HStatus := .healthy

/-- `databaseHealth`: healthy or unhealthy depending on the store check. -/
def databaseHealthStatus (ok : Bool) : HStatus :=
  if ok then .healthy else .unhealthy

/-- `redisHealth`: healthy or unhealthy depending on the ping. -/
def redisHealthStatus (ok : Bool) : HStatus :=
  if ok then .healthy else .unhealthy

/-- `queueHealth`: healthy when the stats query succeeds, unhealthy when
it throws. -/
def queueHealthStatus (ok : Bool) : HStatus :=
  if ok then .healthy else .unhealthy

/-- `systemHealth`: healthy when memory and CPU are under their
thresholds, warning otherwise — never unhealthy. -/
def systemHealthStatus (memoryHealthy cpuHealthy : Bool) : HStatus :=
  if memoryHealthy && cpuHealthy then .healthy else .warning

/-- The five statuses assembled by `comprehensiveHealth` in check order
(basic, database, redis, queue, system). -/
def comprehensiveChecks (dbOk redisOk queueOk memOk cpuOk : Bool) :
    List HStatus :=
  [basicHealthStatus, databaseHealthStatus dbOk, redisHealthStatus redisOk,
   queueHealthStatus queueOk, systemHealthStatus memOk cpuOk]

/-- The composite computed by `comprehensiveHealth`:
`allHealthy ? 'healthy' : (hasWarnings ? 'warning' : 'unhealthy')`. -/
def comprehensiveStatus (checks : List HStatus) : HStatus :=
  if checks.all (· == .healthy) then .healthy
  else if checks.any (· == .warning) then .warning
  else .unhealthy

/-- The HTTP code chosen by the `/health/comprehensive` endpoint:
`healthy ? 200 : status === 'warning' ? 200 : 503`. -/
def comprehensiveHttpCode (s : HStatus) : Nat :=
  if s == .healthy then 200 else if s == .warning then 200 else 503

/-- Modelled from the spec: the rank of a status under the tier order
healthy < warning < unhealthy used by the worst-of-the-checks rule. -/
def specTierRank : HStatus → Nat
  | .healthy => 0
  | .warning => 1
  | .unhealthy => 2
  | .errored => 2

/-- Modelled from the spec: the composite the claim describes — the worst
of the individual check statuses under healthy < warning < unhealthy. -/
def specWorstStatus (checks : List HStatus) : HStatus :=
  if checks.any (· == .unhealthy) then .unhealthy
  else if checks.any (· == .warning) then .warning
  else .healthy

/-- Cache coherence: every cached entry under a submission key is the
full row the store holds for that id (the shape the upload path and
`GET /submission/:id` write). -/
def coherentCache (b : CacheBackend CachedSub) (db : List Submission) : Prop :=
  ∀ i c, cacheUtilsGet b (subKey i) = some c →
    ∃ s, c = CachedSub.full s ∧ dbSingleFull db i = Except.ok s

/-- An empty, available cache. -/
def emptyCache : CacheBackend CachedSub := ⟨false, []⟩

/-- An unavailable cache backend: every operation on it rejects. -/
def downCache : CacheBackend CachedSub := ⟨true, []⟩

/-- A stored row as created by the upload path. -/
def subRow1 : Submission :=
  ⟨"id1", "url1", some "cv text", some "job text", "uploaded"⟩

/-- A stored row whose extracted CV text is absent. -/
def subRowNoText : Submission :=
  ⟨"id2", "url2", none, some "job text", "uploaded"⟩

/-- A one-row submissions table. -/
def db1 : List Submission := [subRow1]

/-- A cache holding the full row for `id1`, as the upload path leaves it. -/
def warmCache : CacheBackend CachedSub :=
  ⟨false, [(subKey "id1", StoredVal.good (CachedSub.full subRow1))]⟩

/-- A well-formed parsed generative output. -/
def goodCv : TailoredCv :=
  { full_name := "Jane Candidate", email := "jane@example.com",
    phone_number := "555-0100", linkedin_url := none,
    portfolio_github_url := none, address := "1 Main St",
    summary := "Seasoned engineer.", experience := [], education := [],
    technical_skills := SkillsVal.arr [], soft_skills := SkillsVal.arr [] }

/-- Generative responses that parse on every attempt. -/
def responsesOk : Nat → StoredVal TailoredCv := fun _ => StoredVal.good goodCv

/-- Generative responses that never parse. -/
def responsesBad : Nat → StoredVal TailoredCv := fun _ => StoredVal.corrupt

/-- Generative responses whose first two attempts are malformed and whose
third parses. -/
def responsesThird : Nat → StoredVal TailoredCv :=
  fun n => if n ≤ 2 then StoredVal.corrupt else StoredVal.good goodCv

/-- A system state with one uploaded submission and idle queues. -/
def sysU : Sys := ⟨db1, emptyCache, [], []⟩

/-- A system state whose only submission lacks its CV text. -/
def sysNoText : Sys := ⟨[subRowNoText], emptyCache, [], []⟩

/-- Template data with empty skills lists and no portfolio link. -/
def emptySkillsCv : TplCv :=
  { full_name := "Jane Candidate", email := "jane@example.com",
    phone_number := "555-0100", linkedin_url := none,
    portfolio_github_url := none, address := "1 Main St",
    summary := "Seasoned engineer.", experience := [], education := [],
    technical_skills := [], soft_skills := [] }

/-- A buffer neither external parser accepts (e.g. image bytes). -/
def rawBuf : FileBuf := ⟨Except.error (), Except.error (), "PNG-bytes"⟩

/-- A buffer delivered as plain text. -/
def textBuf : FileBuf := ⟨Except.error (), Except.error (), "hello cv"⟩

lemma mem_optFrag {a f : Frag} {c : Bool} :
    a ∈ optFrag c f ↔ c = true ∧ a = f := by
  cases c <;> simp [optFrag]

lemma cacheUtilsGet_failing {α : Type} (b : CacheBackend α) (k : String)
    (h : b.failing = true) : cacheUtilsGet b k = none := by
  simp [cacheUtilsGet, cacheTryGet, redisGet, h]

lemma cacheUtilsGet_emptyCache (k : String) :
    cacheUtilsGet emptyCache k = none := rfl

lemma countGen_nil : countGen [] = 0 := rfl

lemma countGen_cons_enqueue (i : String) (evs : List Ev) :
    countGen (Ev.enqueueCvJob i :: evs) = countGen evs := by
  simp [countGen, List.countP_cons, isGenInvoke]

lemma tailorRetry_trace_cases (responses : Nat → StoredVal TailoredCv) :
    (tailorRetry responses).2 = [Ev.genInvoke 1] ∨
    (tailorRetry responses).2 = [Ev.genInvoke 1, Ev.genInvoke 2] ∨
    (tailorRetry responses).2 =
      [Ev.genInvoke 1, Ev.genInvoke 2, Ev.genInvoke 3] := by
  unfold tailorRetry
  cases h1 : jsonParseE (responses 1) with
  | ok d => simp
  | error e1 =>
    cases h2 : jsonParseE (responses 2) with
    | ok d => simp
    | error e2 =>
      cases h3 : jsonParseE (responses 3) with
      | ok d => simp
      | error e3 => simp

lemma countGen_tailorRetry_le (responses : Nat → StoredVal TailoredCv) :
    countGen (tailorRetry responses).2 ≤ 3 := by
  rcases tailorRetry_trace_cases responses with h | h | h <;> rw [h] <;> decide

lemma countGen_tailorRetry_pos (responses : Nat → StoredVal TailoredCv) :
    1 ≤ countGen (tailorRetry responses).2 := by
  rcases tailorRetry_trace_cases responses with h | h | h <;> rw [h] <;> decide

lemma tailorRetry_no_sleep (responses : Nat → StoredVal TailoredCv)
    (m : Nat) : Ev.sleepMs m ∉ (tailorRetry responses).2 := by
  rcases tailorRetry_trace_cases responses with h | h | h <;> rw [h] <;> simp

lemma tailorRetry_two_fail_then_ok (responses : Nat → StoredVal TailoredCv)
    (d : TailoredCv)
    (h1 : jsonParseE (responses 1) = Except.error ())
    (h2 : jsonParseE (responses 2) = Except.error ())
    (h3 : jsonParseE (responses 3) = Except.ok d) :
    tailorRetry responses =
      (some d, [Ev.genInvoke 1, Ev.genInvoke 2, Ev.genInvoke 3]) := by
  simp [tailorRetry, h1, h2, h3]

lemma tailorRetry_all_fail (responses : Nat → StoredVal TailoredCv)
    (h1 : jsonParseE (responses 1) = Except.error ())
    (h2 : jsonParseE (responses 2) = Except.error ())
    (h3 : jsonParseE (responses 3) = Except.error ()) :
    tailorRetry responses =
      (none, [Ev.genInvoke 1, Ev.genInvoke 2, Ev.genInvoke 3]) := by
  simp [tailorRetry, h1, h2, h3]

lemma fetchPhase_err (cache : CacheBackend CachedSub) (db : List Submission)
    (i : String) (hg : cacheUtilsGet cache (subKey i) = none)
    (hdb : dbSingleProj db i = Except.error ()) :
    fetchPhase cache db i = Except.error () := by
  simp [fetchPhase, hg, hdb]

lemma tailorCvHandler_eq_of_fetchErr (sys : Sys) (i : String)
    (responses : Nat → StoredVal TailoredCv)
    (hf : fetchPhase sys.cache sys.db i = Except.error ()) :
    tailorCvHandler sys i responses =
      (⟨500, RespBody.jsonErr "Internal server error."⟩, sys, []) := by
  simp [tailorCvHandler, hf]

lemma tailorCvHandler_eq_of_invalid (sys : Sys) (i : String)
    (responses : Nat → StoredVal TailoredCv) (p : SubProj)
    (c' : CacheBackend CachedSub)
    (hf : fetchPhase sys.cache sys.db i = Except.ok (p, c'))
    (hv : (jsTruthyStr p.original_cv_text &&
           jsTruthyStr p.job_spec_text) = false) :
    tailorCvHandler sys i responses =
      (⟨400,
        RespBody.jsonErr
          "Missing original CV content or job spec content in database for tailoring."⟩,
       { sys with cache := c' }, []) := by
  simp [tailorCvHandler, hf, hv]

lemma tailorCvHandler_eq_of_fetch (sys : Sys) (i : String)
    (responses : Nat → StoredVal TailoredCv) (p : SubProj)
    (c' : CacheBackend CachedSub)
    (hf : fetchPhase sys.cache sys.db i = Except.ok (p, c'))
    (hv : (jsTruthyStr p.original_cv_text &&
           jsTruthyStr p.job_spec_text) = true) :
    tailorCvHandler sys i responses =
      ((tailorRetry responses).1.elim
         ⟨500, RespBody.jsonErr
           "AI failed to generate a valid CV. Please try again."⟩
         (fun d => ⟨200, RespBody.pdfDoc (renderTemplate (normalizeCv d))⟩),
       { sys with
           cache := c',
           cvQueue := sys.cvQueue ++
             [⟨i, p.original_cv_text.getD "", p.job_spec_text.getD ""⟩] },
       Ev.enqueueCvJob i :: (tailorRetry responses).2) := by
  rcases htr : tailorRetry responses with ⟨o, evs⟩
  cases o <;> simp [tailorCvHandler, hf, hv, htr]

lemma tailorCvHandler_trace_cases (sys : Sys) (i : String)
    (responses : Nat → StoredVal TailoredCv) :
    (tailorCvHandler sys i responses).2.2 = [] ∨
    (tailorCvHandler sys i responses).2.2 =
      Ev.enqueueCvJob i :: (tailorRetry responses).2 := by
  cases hf : fetchPhase sys.cache sys.db i with
  | error e =>
    cases e
    rw [tailorCvHandler_eq_of_fetchErr sys i responses hf]
    left; rfl
  | ok pc =>
    rcases pc with ⟨p, c'⟩
    cases hv : (jsTruthyStr p.original_cv_text &&
                jsTruthyStr p.job_spec_text) with
    | false =>
      rw [tailorCvHandler_eq_of_invalid sys i responses p c' hf hv]
      left; rfl
    | true =>
      rw [tailorCvHandler_eq_of_fetch sys i responses p c' hf hv]
      right; rfl

/-- Claim C10: `cacheUtils.set` and `cacheUtils.get` are total for every
key — `set` never throws (an unavailable backend leaves the cache
untouched), and `get` never throws, returning the parsed stored value
exactly when the backend is available, the key is present and the entry
parses, and null in every other case (key absent, backend error, or a
stored value that fails to parse), so a caller cannot observe a cache
failure other than as a miss. -/
theorem cacheUtils_total_get_set {α : Type} (b : CacheBackend α)
    (k : String) (v : α) :
    (b.failing = true → cacheUtilsGet b k = none) ∧
    (b.failing = false → assocGet b.store k = none →
      cacheUtilsGet b k = none) ∧
    (b.failing = false → assocGet b.store k = some StoredVal.corrupt →
      cacheUtilsGet b k = none) ∧
    (∀ a : α, b.failing = false →
      assocGet b.store k = some (StoredVal.good a) →
      cacheUtilsGet b k = some a) ∧
    (b.failing = true → cacheUtilsSet b k v = b) ∧
    (b.failing = false →
      cacheUtilsSet b k v = ⟨false, (k, StoredVal.good v) :: b.store⟩) := by
  refine ⟨fun h => cacheUtilsGet_failing b k h, ?_, ?_, ?_, ?_, ?_⟩
  · intro hf hk
    simp [cacheUtilsGet, cacheTryGet, redisGet, hf, hk]
  · intro hf hk
    simp [cacheUtilsGet, cacheTryGet, redisGet, jsonParseE, hf, hk]
  · intro a hf hk
    simp [cacheUtilsGet, cacheTryGet, redisGet, jsonParseE, hf, hk]
  · intro hf
    simp [cacheUtilsSet, redisSetex, hf]
  · intro hf
    simp [cacheUtilsSet, redisSetex, hf]

/-- Witness for C10 at concrete backends: a failing backend, a hit, a
corrupt entry, and a failing-backend write. -/
theorem cacheUtils_total_get_set_witness :
    cacheUtilsGet (⟨true, []⟩ : CacheBackend Nat) "k" = none ∧
    cacheUtilsGet
      (⟨false, [("k", StoredVal.good 7)]⟩ : CacheBackend Nat) "k" = some 7 ∧
    cacheUtilsGet
      (⟨false, [("k", StoredVal.corrupt)]⟩ : CacheBackend Nat) "k" = none ∧
    cacheUtilsSet (⟨true, []⟩ : CacheBackend Nat) "k" 5 = ⟨true, []⟩ := by
  refine ⟨?_, ?_, ?_, ?_⟩
  · exact (cacheUtils_total_get_set (⟨true, []⟩ : CacheBackend Nat)
      "k" 5).1 rfl
  · exact (cacheUtils_total_get_set
      (⟨false, [("k", StoredVal.good 7)]⟩ : CacheBackend Nat)
      "k" 5).2.2.2.1 7 rfl rfl
  · exact (cacheUtils_total_get_set
      (⟨false, [("k", StoredVal.corrupt)]⟩ : CacheBackend Nat)
      "k" 5).2.2.1 rfl rfl
  · exact (cacheUtils_total_get_set (⟨true, []⟩ : CacheBackend Nat)
      "k" 5).2.2.2.2.1 rfl

/-- Claim C4 counterexample: with the database check unhealthy and the
system check warning (all reachable individual results), the composite
computed by `comprehensiveHealth` is warning — not the worst status,
which is unhealthy — and the endpoint answers HTTP 200, not 503. -/
theorem comprehensive_not_worst_cex :
    comprehensiveStatus (comprehensiveChecks false true true false true) =
      HStatus.warning ∧
    specWorstStatus (comprehensiveChecks false true true false true) =
      HStatus.unhealthy ∧
    comprehensiveStatus (comprehensiveChecks false true true false true) ≠
      specWorstStatus (comprehensiveChecks false true true false true) ∧
    comprehensiveHttpCode
      (comprehensiveStatus (comprehensiveChecks false true true false true)) =
      200 := by
  decide

/-- Claim C4 (amended): the composite equals the worst individual status
only when no check warns; whenever some check is not healthy and some
check warns, the composite is warning (even if another check is
unhealthy); and the endpoint returns 503 exactly when no check warns
and not all are healthy, 200 otherwise. -/
theorem comprehensive_status_characterization :
    ∀ dbOk redisOk queueOk memOk cpuOk : Bool,
      ((comprehensiveChecks dbOk redisOk queueOk memOk cpuOk).any
          (· == HStatus.warning) = false →
        comprehensiveStatus
            (comprehensiveChecks dbOk redisOk queueOk memOk cpuOk) =
          specWorstStatus
            (comprehensiveChecks dbOk redisOk queueOk memOk cpuOk)) ∧
      ((comprehensiveChecks dbOk redisOk queueOk memOk cpuOk).all
          (· == HStatus.healthy) = false →
        (comprehensiveChecks dbOk redisOk queueOk memOk cpuOk).any
          (· == HStatus.warning) = true →
        comprehensiveStatus
            (comprehensiveChecks dbOk redisOk queueOk memOk cpuOk) =
          HStatus.warning) ∧
      (comprehensiveHttpCode
          (comprehensiveStatus
            (comprehensiveChecks dbOk redisOk queueOk memOk cpuOk)) = 503 ↔
        ((comprehensiveChecks dbOk redisOk queueOk memOk cpuOk).all
            (· == HStatus.healthy) = false ∧
         (comprehensiveChecks dbOk redisOk queueOk memOk cpuOk).any
            (· == HStatus.warning) = false)) := by
  decide

/-- Witness for the amended C4: a warning-free failure where the
composite is the worst status, and a warning-containing one where the
composite is warning. -/
theorem comprehensive_status_characterization_witness :
    comprehensiveStatus (comprehensiveChecks false true true true true) =
      specWorstStatus (comprehensiveChecks false true true true true) ∧
    comprehensiveStatus (comprehensiveChecks true true true true false) =
      HStatus.warning := by
  refine ⟨?_, ?_⟩
  · exact (comprehensive_status_characterization
      false true true true true).1 (by decide)
  · exact (comprehensive_status_characterization
      true true true true false).2.1 (by decide) (by decide)

/-- Claim C8 counterexample: a declared media type outside the supported
set (here `image/png`, accepted by the upload file filter) is not
rejected with an extraction error — the dispatch falls through to
UTF-8 decoding and yields a text result even though neither parser
accepts the bytes. -/
theorem extract_unsupported_type_cex :
    extractCv "image/png" rawBuf = some "PNG-bytes" ∧
    extractCv "image/png" rawBuf ≠ none := by
  constructor <;> decide

/-- Claim C8 (amended): PDF and DOCX parse failures yield the extraction
error (`null`, turned into the HTTP 400 rejection by the upload
handler) and parse successes yield the extracted text, while every
other declared media type is decoded as UTF-8 and always yields a text
result, never an extraction error; extraction never throws past its
boundary (both parsers absorb their parser's failure). -/
theorem extract_dispatch_behaviour (buf : FileBuf) :
    (buf.pdfParseResult = Except.error () →
      extractCv "application/pdf" buf = none ∧
      cvUploadExtractStep "application/pdf" buf =
        Except.error (400, "Unsupported CV file format or parsing failed.")) ∧
    (∀ t, buf.pdfParseResult = Except.ok t →
      extractCv "application/pdf" buf = some t) ∧
    (buf.docxParseResult = Except.error () →
      extractCv docxMime buf = none ∧
      cvUploadExtractStep docxMime buf =
        Except.error (400, "Unsupported CV file format or parsing failed.")) ∧
    (∀ t, buf.docxParseResult = Except.ok t →
      extractCv docxMime buf = some t) ∧
    (∀ mt, mt ≠ "application/pdf" → mt ≠ docxMime →
      extractCv mt buf = some buf.utf8 ∧
      cvUploadExtractStep mt buf = Except.ok buf.utf8) := by
  have hne : docxMime ≠ "application/pdf" := by decide
  refine ⟨?_, ?_, ?_, ?_, ?_⟩
  · intro h
    simp [extractCv, cvUploadExtractStep, parsePdf, h]
  · intro t h
    simp [extractCv, parsePdf, h]
  · intro h
    simp [extractCv, cvUploadExtractStep, parseDocx, h, hne]
  · intro t h
    simp [extractCv, parseDocx, h, hne]
  · intro mt h1 h2
    simp [extractCv, cvUploadExtractStep, h1, h2]

/-- Witness for the amended C8: an unparsable PDF buffer is rejected and
a plain-text buffer flows through as its UTF-8 decoding. -/
theorem extract_dispatch_witness :
    extractCv "application/pdf" rawBuf = none ∧
    extractCv "text/plain" textBuf = some "hello cv" := by
  have h1 := (extract_dispatch_behaviour rawBuf).1 rfl
  have h2 := (extract_dispatch_behaviour textBuf).2.2.2.2 "text/plain"
    (by decide) (by decide)
  exact ⟨h1.1, h2.1⟩

/-- Claim C9 counterexample: on a payload with empty skills lists and no
portfolio link, the rendered document still contains the static
"Skills" section heading — the skills section is emptied, not omitted
entirely as the claim states. -/
theorem render_skills_heading_cex :
    emptySkillsCv.technical_skills = [] ∧
    emptySkillsCv.soft_skills = [] ∧
    jsTruthyStr emptySkillsCv.portfolio_github_url = false ∧
    Frag.sectionTitle "Skills" ∈ renderTemplate emptySkillsCv := by
  decide

/-- Claim C9 (amended): for every payload with empty skills lists and an
absent or empty portfolio link, rendering emits the candidate's full
name, omits both skills list blocks and the portfolio link, and raises
no error — but the static "Skills" section heading is still emitted
(the section is left empty rather than omitted). -/
theorem render_graceful_degradation (d : TplCv)
    (ht : d.technical_skills = []) (hs : d.soft_skills = [])
    (hp : jsTruthyStr d.portfolio_github_url = false) :
    Frag.nameHeading d.full_name ∈ renderTemplate d ∧
    (∀ xs, Frag.technicalSkillsBlock xs ∉ renderTemplate d) ∧
    (∀ xs, Frag.softSkillsBlock xs ∉ renderTemplate d) ∧
    (∀ u, Frag.portfolioLink u ∉ renderTemplate d) ∧
    Frag.sectionTitle "Skills" ∈ renderTemplate d := by
  refine ⟨?_, ?_, ?_, ?_, ?_⟩
  · simp [renderTemplate]
  · intro xs
    simp [renderTemplate, mem_optFrag, ht, hs, hp, hbTruthyList]
  · intro xs
    simp [renderTemplate, mem_optFrag, ht, hs, hp, hbTruthyList]
  · intro u
    simp [renderTemplate, mem_optFrag, ht, hs, hp, hbTruthyList]
  · simp [renderTemplate]

/-- Witness for the amended C9 at a concrete payload. -/
theorem render_graceful_degradation_witness :
    Frag.nameHeading "Jane Candidate" ∈ renderTemplate emptySkillsCv ∧
    Frag.technicalSkillsBlock ["x"] ∉ renderTemplate emptySkillsCv ∧
    Frag.portfolioLink "urlx" ∉ renderTemplate emptySkillsCv := by
  have h := render_graceful_degradation emptySkillsCv rfl rfl rfl
  exact ⟨h.1, h.2.1 ["x"], h.2.2.2.1 "urlx"⟩

/-- Claim C7 counterexample: with no submission under the requested id,
`GET /submission/:id` answers HTTP 500 (the single-row query rejection
reaches the generic catch), not the 404 the claim requires. -/
theorem getSubmission_absent_cex :
    (getSubmissionHandler emptyCache [] "nosuch").1.status = 500 ∧
    (getSubmissionHandler emptyCache [] "nosuch").1.status ≠ 404 := by
  constructor <;> decide

/-- Claim C7 (amended): `GET /submission/:id` returns HTTP 200 with the
stored entity when the id resolves (from cache or store), and HTTP 500
with a generic message — never 404 — when no submission with that id
exists, because the missing-row rejection lands in the generic catch
and the 404 branch is unreachable. -/
theorem getSubmission_behaviour (cache : CacheBackend CachedSub)
    (db : List Submission) (i : String) :
    (cacheUtilsGet cache (subKey i) = none →
      dbSingleFull db i = Except.error () →
      (getSubmissionHandler cache db i).1 =
        ⟨500, RespBody.jsonErr "Internal server error."⟩) ∧
    (∀ s, cacheUtilsGet cache (subKey i) = none →
      dbSingleFull db i = Except.ok s →
      (getSubmissionHandler cache db i).1 =
        ⟨200, RespBody.jsonSub (CachedSub.full s)⟩) ∧
    (∀ c, cacheUtilsGet cache (subKey i) = some c →
      (getSubmissionHandler cache db i).1 = ⟨200, RespBody.jsonSub c⟩) ∧
    (getSubmissionHandler cache db i).1.status ≠ 404 := by
  refine ⟨?_, ?_, ?_, ?_⟩
  · intro hg hdb
    simp [getSubmissionHandler, hg, hdb]
  · intro s hg hdb
    simp [getSubmissionHandler, hg, hdb, jsTruthyObj]
  · intro c hg
    simp [getSubmissionHandler, hg]
  · cases hg : cacheUtilsGet cache (subKey i) with
    | some c => simp [getSubmissionHandler, hg]
    | none =>
      cases hdb : dbSingleFull db i with
      | error e =>
        cases e
        simp [getSubmissionHandler, hg, hdb]
      | ok s =>
        simp [getSubmissionHandler, hg, hdb, jsTruthyObj]

/-- Witness for the amended C7: a store hit, a miss, and a cache hit. -/
theorem getSubmission_behaviour_witness :
    (getSubmissionHandler emptyCache db1 "id1").1 =
      ⟨200, RespBody.jsonSub (CachedSub.full subRow1)⟩ ∧
    (getSubmissionHandler emptyCache db1 "missing").1 =
      ⟨500, RespBody.jsonErr "Internal server error."⟩ ∧
    (getSubmissionHandler warmCache db1 "id1").1 =
      ⟨200, RespBody.jsonSub (CachedSub.full subRow1)⟩ := by
  refine ⟨?_, ?_, ?_⟩
  · exact (getSubmission_behaviour emptyCache db1 "id1").2.1 subRow1
      rfl rfl
  · exact (getSubmission_behaviour emptyCache db1 "missing").1
      rfl rfl
  · exact (getSubmission_behaviour warmCache db1 "id1").2.2.1
      (CachedSub.full subRow1) (by decide)

/-- Claim C2 counterexample: a fully successful tailor run (HTTP 200 with
the rendered document) leaves the stored submission's status at
"uploaded" — it is never set to queued, tailoring or tailored, so the
claimed state machine is not driven by the code. -/
theorem tailor_status_not_updated_cex :
    (tailorCvHandler sysU "id1" responsesOk).1.status = 200 ∧
    (dbFindRow (tailorCvHandler sysU "id1" responsesOk).2.1.db "id1").map
        Submission.status = some "uploaded" ∧
    (dbFindRow (tailorCvHandler sysU "id1" responsesOk).2.1.db "id1").map
        Submission.status ≠ some "tailored" := by
  refine ⟨?_, ?_, ?_⟩ <;> decide

/-- Claim C2 (amended): the tailor operation never writes
`Submission.status` at all — in every run, successful or not, the
submissions table (and with it each row's status) is exactly as it was
before the request; the outcome is conveyed only in the HTTP response. -/
theorem tailorCv_db_unchanged (sys : Sys) (i : String)
    (responses : Nat → StoredVal TailoredCv) :
    (tailorCvHandler sys i responses).2.1.db = sys.db ∧
    ∀ j, (dbFindRow (tailorCvHandler sys i responses).2.1.db j).map
        Submission.status = (dbFindRow sys.db j).map Submission.status := by
  have hdb : (tailorCvHandler sys i responses).2.1.db = sys.db := by
    cases hf : fetchPhase sys.cache sys.db i with
    | error e =>
      cases e
      rw [tailorCvHandler_eq_of_fetchErr sys i responses hf]
    | ok pc =>
      rcases pc with ⟨p, c'⟩
      cases hv : (jsTruthyStr p.original_cv_text &&
                  jsTruthyStr p.job_spec_text) with
      | false => rw [tailorCvHandler_eq_of_invalid sys i responses p c' hf hv]
      | true => rw [tailorCvHandler_eq_of_fetch sys i responses p c' hf hv]
  exact ⟨hdb, fun j => by rw [hdb]⟩

/-- Claim C3 counterexample: in a concrete run the `cv-processing` queue
worker performs zero generative invocations while the request handler
itself performs one — the generative call is not executed by the
enqueued job. -/
theorem queue_job_no_generative_cex :
    countGen (cvProcessingProcess sysU ⟨"id1", "cv text", "job text"⟩).2.2 =
      0 ∧
    countGen (tailorCvHandler sysU "id1" responsesOk).2.2 = 1 := by
  constructor <;> decide

/-- Claim C3 (amended): the request handler enqueues a `cv-processing`
job but performs the generative call (and its retries) itself; the
queue worker never invokes the generative service — it waits and adds
a `pdf-generation` job. -/
theorem generative_in_handler_not_queue (sys : Sys) (job : CvJob)
    (i : String) (responses : Nat → StoredVal TailoredCv) :
    countGen (cvProcessingProcess sys job).2.2 = 0 ∧
    (cvProcessingProcess sys job).2.1.pdfQueue =
      sys.pdfQueue ++ [⟨job.submissionId⟩] ∧
    (∀ p c', fetchPhase sys.cache sys.db i = Except.ok (p, c') →
      (jsTruthyStr p.original_cv_text &&
       jsTruthyStr p.job_spec_text) = true →
      (tailorCvHandler sys i responses).2.1.cvQueue =
        sys.cvQueue ++
          [⟨i, p.original_cv_text.getD "", p.job_spec_text.getD ""⟩] ∧
      1 ≤ countGen (tailorCvHandler sys i responses).2.2) := by
  refine ⟨?_, rfl, ?_⟩
  · simp [cvProcessingProcess, countGen, List.countP_cons, List.countP_nil,
      isGenInvoke]
  · intro p c' hf hv
    rw [tailorCvHandler_eq_of_fetch sys i responses p c' hf hv]
    refine ⟨rfl, ?_⟩
    show 1 ≤ countGen (Ev.enqueueCvJob i :: (tailorRetry responses).2)
    rw [countGen_cons_enqueue]
    exact countGen_tailorRetry_pos responses

/-- Witness for the amended C3 at a concrete run. -/
theorem generative_in_handler_not_queue_witness :
    countGen (cvProcessingProcess sysU ⟨"id1", "cv text", "job text"⟩).2.2 =
      0 ∧
    (tailorCvHandler sysU "id1" responsesOk).2.1.cvQueue =
      [⟨"id1", "cv text", "job text"⟩] ∧
    1 ≤ countGen (tailorCvHandler sysU "id1" responsesOk).2.2 := by
  have h := generative_in_handler_not_queue sysU
    ⟨"id1", "cv text", "job text"⟩ "id1" responsesOk
  have h3 := h.2.2 ⟨some "cv text", some "job text"⟩
    ⟨false, [(subKey "id1",
      StoredVal.good (CachedSub.proj ⟨some "cv text", some "job text"⟩))]⟩
    rfl rfl
  exact ⟨h.1, h3.1, h3.2⟩

/-- Claim C6 counterexample: a tailor request for an id absent from the
store gets HTTP 500 (the single-row query rejection lands in the
generic catch), not the claimed 400 ValidationError; no job is
enqueued and the state is unchanged. -/
theorem tailor_missing_submission_cex :
    (tailorCvHandler sysU "missing" responsesBad).1.status = 500 ∧
    (tailorCvHandler sysU "missing" responsesBad).1.status ≠ 400 ∧
    (tailorCvHandler sysU "missing" responsesBad).2.1 = sysU := by
  refine ⟨?_, ?_, ?_⟩ <;> decide

/-- Claim C6 (amended): a tailor request whose submission is missing from
both cache and store fails with the generic HTTP 500 (not 400), while
one whose submission exists but lacks a truthy CV text or job-spec
text fails with the 400 ValidationError message; in both cases the
store is unchanged, no job is enqueued and the generative service is
never invoked. -/
theorem tailor_validation_behaviour (sys : Sys) (i : String)
    (responses : Nat → StoredVal TailoredCv) :
    (cacheUtilsGet sys.cache (subKey i) = none →
      dbSingleProj sys.db i = Except.error () →
      (tailorCvHandler sys i responses).1 =
        ⟨500, RespBody.jsonErr "Internal server error."⟩ ∧
      (tailorCvHandler sys i responses).2.1 = sys ∧
      countGen (tailorCvHandler sys i responses).2.2 = 0) ∧
    (∀ p c', fetchPhase sys.cache sys.db i = Except.ok (p, c') →
      (jsTruthyStr p.original_cv_text &&
       jsTruthyStr p.job_spec_text) = false →
      (tailorCvHandler sys i responses).1 =
        ⟨400, RespBody.jsonErr
          "Missing original CV content or job spec content in database for tailoring."⟩ ∧
      (tailorCvHandler sys i responses).2.1.db = sys.db ∧
      (tailorCvHandler sys i responses).2.1.cvQueue = sys.cvQueue ∧
      countGen (tailorCvHandler sys i responses).2.2 = 0) := by
  constructor
  · intro hg hdb
    have hf := fetchPhase_err sys.cache sys.db i hg hdb
    rw [tailorCvHandler_eq_of_fetchErr sys i responses hf]
    exact ⟨rfl, rfl, rfl⟩
  · intro p c' hf hv
    rw [tailorCvHandler_eq_of_invalid sys i responses p c' hf hv]
    exact ⟨rfl, rfl, rfl, rfl⟩

/-- Witness for the amended C6: a missing id and a row without CV text. -/
theorem tailor_validation_behaviour_witness :
    (tailorCvHandler sysU "missing" responsesBad).1 =
      ⟨500, RespBody.jsonErr "Internal server error."⟩ ∧
    (tailorCvHandler sysNoText "id2" responsesBad).1 =
      ⟨400, RespBody.jsonErr
        "Missing original CV content or job spec content in database for tailoring."⟩ ∧
    (tailorCvHandler sysNoText "id2" responsesBad).2.1.cvQueue = [] := by
  have h1 := (tailor_validation_behaviour sysU "missing" responsesBad).1
    rfl rfl
  have h2 := (tailor_validation_behaviour sysNoText "id2" responsesBad).2
    ⟨none, some "job text"⟩
    ⟨false, [(subKey "id2",
      StoredVal.good (CachedSub.proj ⟨none, some "job text"⟩))]⟩
    rfl rfl
  exact ⟨h1.1, h2.1, h2.2.2.1⟩

/-- Claim C1: in every tailor run the generative service is invoked at
most 3 times and the handler never waits between attempts; when the
fetch and validation succeed and the first two responses fail to parse,
a parsing third response yields the rendered document (HTTP 200), while
a third parse failure yields the generic tailoring-failure response
(HTTP 500) after exactly 3 invocations. -/
theorem tailorCv_retry_bound (sys : Sys) (i : String)
    (responses : Nat → StoredVal TailoredCv) :
    countGen (tailorCvHandler sys i responses).2.2 ≤ 3 ∧
    (∀ m, Ev.sleepMs m ∉ (tailorCvHandler sys i responses).2.2) ∧
    (∀ p c', fetchPhase sys.cache sys.db i = Except.ok (p, c') →
      (jsTruthyStr p.original_cv_text &&
       jsTruthyStr p.job_spec_text) = true →
      jsonParseE (responses 1) = Except.error () →
      jsonParseE (responses 2) = Except.error () →
      ((∀ d, jsonParseE (responses 3) = Except.ok d →
        (tailorCvHandler sys i responses).1 =
          ⟨200, RespBody.pdfDoc (renderTemplate (normalizeCv d))⟩ ∧
        countGen (tailorCvHandler sys i responses).2.2 = 3) ∧
       (jsonParseE (responses 3) = Except.error () →
        (tailorCvHandler sys i responses).1 =
          ⟨500, RespBody.jsonErr
            "AI failed to generate a valid CV. Please try again."⟩ ∧
        countGen (tailorCvHandler sys i responses).2.2 = 3))) := by
  refine ⟨?_, ?_, ?_⟩
  · rcases tailorCvHandler_trace_cases sys i responses with h | h
    · rw [h]; decide
    · rw [h, countGen_cons_enqueue]
      exact countGen_tailorRetry_le responses
  · intro m
    rcases tailorCvHandler_trace_cases sys i responses with h | h
    · rw [h]; simp
    · rw [h]
      intro hmem
      rcases List.mem_cons.mp hmem with heq | hmem2
      · exact absurd heq (by simp)
      · exact tailorRetry_no_sleep responses m hmem2
  · intro p c' hf hv h1 h2
    constructor
    · intro d h3
      have htr := tailorRetry_two_fail_then_ok responses d h1 h2 h3
      rw [tailorCvHandler_eq_of_fetch sys i responses p c' hf hv, htr]
      exact ⟨rfl, rfl⟩
    · intro h3
      have htr := tailorRetry_all_fail responses h1 h2 h3
      rw [tailorCvHandler_eq_of_fetch sys i responses p c' hf hv, htr]
      exact ⟨rfl, rfl⟩

/-- Witness for C1: two malformed responses followed by a well-formed one
succeed after exactly 3 invocations; three malformed responses fail
generically after exactly 3 invocations. -/
theorem tailorCv_retry_bound_witness :
    (tailorCvHandler sysU "id1" responsesThird).1 =
      ⟨200, RespBody.pdfDoc (renderTemplate (normalizeCv goodCv))⟩ ∧
    countGen (tailorCvHandler sysU "id1" responsesThird).2.2 = 3 ∧
    (tailorCvHandler sysU "id1" responsesBad).1 =
      ⟨500, RespBody.jsonErr
        "AI failed to generate a valid CV. Please try again."⟩ ∧
    countGen (tailorCvHandler sysU "id1" responsesBad).2.2 = 3 := by
  have hg := (tailorCv_retry_bound sysU "id1" responsesThird).2.2
    ⟨some "cv text", some "job text"⟩
    ⟨false, [(subKey "id1",
      StoredVal.good (CachedSub.proj ⟨some "cv text", some "job text"⟩))]⟩
    rfl rfl rfl rfl
  have hOk := hg.1 goodCv rfl
  have hb := (tailorCv_retry_bound sysU "id1" responsesBad).2.2
    ⟨some "cv text", some "job text"⟩
    ⟨false, [(subKey "id1",
      StoredVal.good (CachedSub.proj ⟨some "cv text", some "job text"⟩))]⟩
    rfl rfl rfl rfl
  have hBad := hb.2 rfl
  exact ⟨hOk.1, hOk.2, hBad.1, hBad.2⟩

lemma subKey_inj {a b : String} (h : subKey a = subKey b) : a = b := by
  have hd : ("submission:" ++ a).data = ("submission:" ++ b).data :=
    congrArg String.data h
  rw [String.data_append, String.data_append] at hd
  exact String.ext (List.append_cancel_left hd)

lemma coherent_warmCache : coherentCache warmCache db1 := by
  intro i c h
  by_cases hk : subKey "id1" = subKey i
  · have hi : i = "id1" := (subKey_inj hk).symm
    subst hi
    have hw : cacheUtilsGet warmCache (subKey "id1") =
        some (CachedSub.full subRow1) := rfl
    rw [hw] at h
    refine ⟨subRow1, ?_, rfl⟩
    exact (Option.some_injective _ h).symm
  · have hnone : cacheUtilsGet warmCache (subKey i) = none := by
      simp [cacheUtilsGet, cacheTryGet, redisGet, warmCache, assocGet, hk]
    rw [hnone] at h
    cases h

/-- Claim C5: with the cache backend unavailable, the submission read of
the tailor path and the `GET /submission/:id` path return results
identical to those with an available cache whose entries agree with
the store (every failure of `get`/`set` is absorbed and the read falls
through to the store). -/
theorem cache_failopen_read_equiv (db : List Submission) (i : String)
    (b bc : CacheBackend CachedSub) (hb : b.failing = true)
    (hc : coherentCache bc db) :
    (fetchPhase b db i).map Prod.fst = (fetchPhase bc db i).map Prod.fst ∧
    (getSubmissionHandler b db i).1 = (getSubmissionHandler bc db i).1 := by
  have hgb : cacheUtilsGet b (subKey i) = none := cacheUtilsGet_failing b _ hb
  constructor
  · cases hgc : cacheUtilsGet bc (subKey i) with
    | none =>
      cases hdb : dbSingleProj db i with
      | error e => simp [fetchPhase, hgb, hgc, hdb]
      | ok p => simp [fetchPhase, hgb, hgc, hdb, Except.map]
    | some c =>
      obtain ⟨s, rfl, hs⟩ := hc i c hgc
      have hdbp : dbSingleProj db i = Except.ok (projOfSub s) := by
        simp [dbSingleProj, hs, Except.map]
      simp [fetchPhase, hgb, hgc, hdbp, projOfCached, Except.map]
  · cases hgc : cacheUtilsGet bc (subKey i) with
    | none =>
      cases hdb : dbSingleFull db i with
      | error e => simp [getSubmissionHandler, hgb, hgc, hdb]
      | ok s => simp [getSubmissionHandler, hgb, hgc, hdb, jsTruthyObj]
    | some c =>
      obtain ⟨s, rfl, hs⟩ := hc i c hgc
      simp [getSubmissionHandler, hgb, hgc, hs, jsTruthyObj]

/-- Witness for C5: an unavailable backend against a warm coherent cache
over the same one-row store gives identical read results on both
paths. -/
theorem cache_failopen_read_equiv_witness :
    (fetchPhase downCache db1 "id1").map Prod.fst =
      (fetchPhase warmCache db1 "id1").map Prod.fst ∧
    (getSubmissionHandler downCache db1 "id1").1 =
      (getSubmissionHandler warmCache db1 "id1").1 :=
  cache_failopen_read_equiv db1 "id1" downCache warmCache rfl
    coherent_warmCache
